import Mathlib

/-!
Verification of the insite-users-server-ws publication layer.

Shallow embedding of the repository sources:
* the publication resolvers and transform hooks of src/publications
  (roles, users, user, sessions publications);
* the UsersServer session plumbing (setSession, the per-user and per-session
  WeakMap side tables, the online-status broadcast, the permissions-change
  renewal event, the login/logout/close handlers);
* the request handlers installed by setupHandlers (src/handlers.ts).

External collaborators (insite-db collections, insite-users-server domain
entities, regexps) are modelled as opaque parameters: functions and registries
passed in, never interpreted.
-/

namespace InsiteUsersWs

/-- JS-like primitive values appearing in documents and request arguments. -/
inductive Val where
  | str (s : String)
  | num (n : Int)
  | bool (b : Bool)
  deriving DecidableEq, Repr

/-- The authorization-relevant view of a logged-in user entity (wssc.user):
its id, the truthiness of user.abilities.inSite?.users, the scoped id sets the
resolvers and handlers consult, and the set of ability long ids the user holds
(the external abilities.hasAbility check, treated as a black box per the spec). -/
structure Caller where
  _id : String
  inSiteUsers : Bool
  permissiveIds : List String
  slaveIds : List String
  slaveRoleIds : List String
  abilityIds : List String
  deriving DecidableEq, Repr

/-- The resolved-query literal returned by the roles publication resolver:
query is a membership query on _id over queryIdIn, with the given projection
keys and a single-field sort. -/
structure RolesResolved where
  queryIdIn : List String
  projection : List String
  sortField : String
  sortAsc : Bool
  deriving DecidableEq, Repr

/-- Resolver of the roles publication (src/unnamed/part_001, RolesPublication),
with the default options: projection defaults to title and description and is
always extended with involves and abilities; sort defaults to _o ascending.
Source: user?.abilities.inSite?.users AND the query object literal; a falsy
resolver result is none. -/
def rolesResolve (user : Option Caller) : Option RolesResolved :=
  match user with
  | some u =>
      if u.inSiteUsers then
        some { queryIdIn := u.slaveRoleIds
               projection := ["title", "description", "involves", "abilities"]
               sortField := "_o"
               sortAsc := true }
      else none
  | none => none

/-- The resolved-query literal returned by the sessions publication resolver. -/
structure SessionsResolved where
  queryUser : String
  projection : List String
  sortField : String
  sortAsc : Bool
  deriving DecidableEq, Repr

/-- Resolver of the sessions publication (src/unnamed/part_001,
SessionsPublication): user?.abilities.inSite?.users AND
user.permissiveIds.includes(userId) AND the literal query object; a falsy
result is none. -/
def sessionsResolve (user : Option Caller) (userId : String) : Option SessionsResolved :=
  match user with
  | some u =>
      if u.inSiteUsers && u.permissiveIds.contains userId then
        some { queryUser := userId
               projection := ["remoteAddress", "isOnline", "prolongedAt"]
               sortField := "prolongedAt"
               sortAsc := false }
      else none
  | none => none

/-- One entry of usersPublication.subscriptions: the subscription handle id and
the logged-in user id of its connection, none when wssc.user is unset. -/
structure UsersSub where
  sid : Nat
  userId : Option String
  deriving DecidableEq, Repr

/-- The wire patch entry emitted by the online-status broadcast:
op, the two fields of the updates object literal, and the implicit flag. -/
structure PatchEntry where
  op : String
  fieldId : String
  fieldIsOnline : Bool
  implicit : Bool
  deriving DecidableEq, Repr

/-- Shallow embedding of UsersServer private handleUserIsOnline
(src/unnamed/part_005): for each users-publication subscription, if the
connection has a user and its id differs from the broadcasting user, deliver
the implicit update patch through subscription.handler directly (the patch is
handed to the handle as-is, which is what bypasses the transform hook);
otherwise deliver nothing. Returns the list of (subscription, patch)
deliveries. -/
def handleUserIsOnline (subs : List UsersSub) (_id : String) (isOnline : Bool) :
    List (UsersSub × PatchEntry) :=
  subs.filterMap fun s =>
    match s.userId with
    | some u =>
        if u ≠ _id then
          some (s, { op := "u", fieldId := _id, fieldIsOnline := isOnline, implicit := true })
        else none
    | none => none

/-- Session environment: the user each session belongs to (session.user) and
the sessions registry (users.sessions.get, for string arguments). Users and
sessions are identified by Nat keys. -/
structure SessEnv where
  sessionUser : Nat → Nat
  sessionsById : String → Option Nat

/-- The fields of a websocket server client touched by setSession. -/
structure Wssc where
  wid : Nat
  isRejected : Bool
  session : Option Nat
  user : Option Nat
  lastUserId : Option Nat
  deriving DecidableEq, Repr

/-- The two WeakMap side tables of UsersServer. userWs u = none models a user
object with no entry; an entry is a JS Set of connections, modelled as an
insertion-ordered duplicate-free list. -/
structure ServerState where
  userWs : Nat → Option (List Nat)
  sessionsWs : Nat → Option Nat

/-- JS Set.add: append if absent. -/
def setAdd (l : List Nat) (x : Nat) : List Nat :=
  if l.contains x then l else l ++ [x]

/-- The session argument of setSession: a Session object, a session id string,
null, or undefined. -/
inductive SessArg where
  | sess (s : Nat)
  | byId (s : String)
  | null
  | undef

/-- The clearing branch of setSession, in source order:
delete wssc.session; delete wssc.user; then
userWsMap.get(wssc.user)?.delete(wssc). At the point of the lookup wssc.user
has already been deleted, so the WeakMap is queried with undefined and the
optional-chained delete never runs; the embedding keeps that dead lookup
literally as a match on the already-cleared user field. -/
def clearingBranch (st : ServerState) (w : Wssc) : ServerState × Wssc :=
  let w1 : Wssc := { w with session := none, user := none }
  let st1 : ServerState :=
    match w1.user with
    | some u =>
        { st with
          userWs := fun k => if k = u then (st.userWs u).map (fun l => l.erase w.wid) else st.userWs k }
    | none => st
  (st1, w1)

/-- Shallow embedding of UsersServer.setSession (src/unnamed/part_005):
normalize the argument (null becomes undefined, a string is looked up in the
sessions registry); when the normalized session differs from the bound one,
drop the old sessionsWsMap entry, then either bind (session present and the
connection not rejected: set session/user/lastUserId, add the connection to
the user entry of userWsMap if present, set the sessionsWsMap entry) or run
the clearing branch. The session.prolong call and the client-session emit are
external effects outside this model. -/
def setSession (env : SessEnv) (st : ServerState) (w : Wssc) (arg : SessArg) :
    ServerState × Wssc :=
  let sess : Option Nat :=
    match arg with
    | SessArg.sess s => some s
    | SessArg.byId s => env.sessionsById s
    | SessArg.null => none
    | SessArg.undef => none
  if w.session = sess then (st, w)
  else
    let st1 : ServerState :=
      match w.session with
      | some old =>
          { st with sessionsWs := fun k => if k = old then none else st.sessionsWs k }
      | none => st
    match sess with
    | some s =>
        if w.isRejected then clearingBranch st1 w
        else
          let u := env.sessionUser s
          let w1 : Wssc := { w with session := some s, user := some u, lastUserId := some u }
          let st2 : ServerState :=
            { userWs := fun k =>
                if k = u then (st1.userWs u).map (fun l => setAdd l w.wid) else st1.userWs k,
              sessionsWs := fun k => if k = s then some w.wid else st1.sessionsWs k }
          (st2, w1)
    | none => clearingBranch st1 w

/-- Shallow embedding of UsersServer private handleUserPermissionsChange:
webSockets = userWsMap.get(user); when an entry exists, emit
should-renew-subscriptions with its spread; when there is no entry, emit
nothing (none). -/
def handleUserPermissionsChange (st : ServerState) (u : Nat) : Option (List Nat) :=
  st.userWs u

/-- Shallow embedding of UsersServer private handleClientRequestLogin:
rejected connections return before calling users.login; otherwise
authentication is attempted (the Bool of the result records whether
users.login was invoked) and, when it yields a session, setSession binds it.
loginResult stands for the awaited result of the external users.login. -/
def handleClientRequestLogin (env : SessEnv) (st : ServerState) (w : Wssc)
    (loginResult : Option Nat) : (ServerState × Wssc) × Bool :=
  if w.isRejected then ((st, w), false)
  else
    match loginResult with
    | some s => (setSession env st w (SessArg.sess s), true)
    | none => ((st, w), true)

/-- State touched by the single-value user publication lifecycle hooks:
the change-listener set of the users collection (a JS Set, modelled as an
insertion-ordered duplicate-free list of listener ids) and the
userSubscriptionChangeListenerMap WeakMap from subscription to its listener. -/
structure UserPubState where
  listeners : List Nat
  subMap : Nat → Option Nat

/-- Shallow embedding of UserPublication.onSubscribe
(src/unnamed/part_001): when the connection has a user, create one change
listener closure (freshListener stands for its identity), register it on the
users collection and record it in the WeakMap under the subscription;
otherwise do nothing. -/
def onSubscribe (st : UserPubState) (subId : Nat) (hasUser : Bool)
    (freshListener : Nat) : UserPubState :=
  if hasUser then
    { listeners := setAdd st.listeners freshListener,
      subMap := fun k => if k = subId then some freshListener else st.subMap k }
  else st

/-- Shallow embedding of UserPublication.onUnsubscribe: look the listener up in
the WeakMap; when found, remove it from the collection listener set; when not
found, remove nothing. -/
def onUnsubscribe (st : UserPubState) (subId : Nat) : UserPubState :=
  match st.subMap subId with
  | some l => { st with listeners := st.listeners.erase l }
  | none => st

/-- An opaque change stream document. -/
structure ChangeDoc where
  key : Nat
  deriving DecidableEq, Repr

/-- Calls made on the roles publication by the users-domain event handlers. -/
inductive RolesPubAction where
  | flushInitial
  | skip (next : ChangeDoc)
  deriving DecidableEq, Repr

/-- Shallow embedding of UsersServer private handleRolesUpdate:
rolesPublication.flushInitial(). -/
def handleRolesUpdate : List RolesPubAction :=
  [RolesPubAction.flushInitial]

/-- Shallow embedding of UsersServer private handleRolesRoleUpdate:
next AND rolesPublication.skip(next) — skip runs only when the change-stream
document is present, and receives exactly it. -/
def handleRolesRoleUpdate (next : Option ChangeDoc) : List RolesPubAction :=
  match next with
  | some n => [RolesPubAction.skip n]
  | none => []

/-- The users-domain events wired to the roles publication in init
(users.on roles-update / roles-role-update). -/
inductive UsersRolesEvent where
  | rolesUpdate
  | rolesRoleUpdate (next : Option ChangeDoc)

/-- Event dispatch per the init registrations. -/
def dispatchRolesEvent : UsersRolesEvent → List RolesPubAction
  | UsersRolesEvent.rolesUpdate => handleRolesUpdate
  | UsersRolesEvent.rolesRoleUpdate next => handleRolesRoleUpdate next

/-- A raw document: a JS object as a partial map from field names to values.
An absent field and a field holding undefined are both none. -/
def Doc : Type := String → Option Val

/-- Property write (some v) or delete (none) of one field. -/
def Doc.set (d : Doc) (k : String) (v : Option Val) : Doc :=
  fun s => if s = k then v else d s

/-- The live user entity fields read by the users publication transform hook. -/
structure UserEntity where
  initials : Val
  displayLabel : Val
  avatarUrl : Val
  isOnline : Bool
  deriving DecidableEq, Repr

/-- Shallow embedding of the users publication transform hook
(src/unnamed/part_001, UsersPublication, default options, no user-supplied
transform): look the live user up by the document id (the source uses a
non-null assertion, so a miss is none here), assign initials, displayLabel,
avatarUrl and isOnline picked from the live user plus orgId taken from the
raw org field of the document, then delete org and avatar. -/
def usersTransform (users : String → Option UserEntity) (d : Doc) : Option Doc :=
  match d ("_id") with
  | some (Val.str i) =>
      match users i with
      | some u =>
          some ((((((((d.set ("initials") (some u.initials)).set
            "displayLabel" (some u.displayLabel)).set
            "avatarUrl" (some u.avatarUrl)).set
            "isOnline" (some (Val.bool u.isOnline))).set
            "orgId" (d ("org"))).set
            "org" none).set
            "avatar" none))
      | none => none
  | _ => none

/-- Errors thrown by the request handlers: AbilityError (with an optional
ability long id), RolesError, SubordinationError (with the id-set name), and
Err with its code. -/
inductive HErr where
  | ability (longId : Option String)
  | roles
  | subordination (field : String)
  | err (code : String)
  deriving DecidableEq, Repr

/-- Domain mutations a handler may initiate (the external await calls). -/
inductive Mutation where
  | createUser
  | changePassword
  | updateUser
  | deleteUser
  | destroySession
  | deleteAvatar
  | createOrg
  | updateOrg
  | deleteOrg
  | createRole
  | updateRole
  | setAbility
  | setAbilityParam
  | deleteRole
  deriving DecidableEq, Repr

/-- The updates object of users.people.update: optional roles and org fields
plus the names of any other fields present (for the isEmpty check). -/
structure UserUpdates where
  roles : Option (List String)
  org : Option String
  otherKeys : List String
  deriving DecidableEq, Repr

/-- isEmpty from the utility library: the object has no own fields. -/
def UserUpdates.isEmptyObj (u : UserUpdates) : Bool :=
  u.roles.isNone && u.org.isNone && u.otherKeys.isEmpty

/-- The updates object of users.orgs.update. -/
structure OrgUpdates where
  title : Option String
  owners : Option (List String)
  otherKeys : List String
  deriving DecidableEq, Repr

def OrgUpdates.isEmptyObj (u : OrgUpdates) : Bool :=
  u.title.isNone && u.owners.isNone && u.otherKeys.isEmpty

/-- The updates object of users.roles.update after the abilities field is
destructured away. -/
structure RoleUpdates where
  involves : Option (List String)
  otherKeys : List String
  deriving DecidableEq, Repr

/-- The requests served by setupHandlers (src/handlers.ts), one constructor
per wss.onRequest registration, carrying the checked arguments. -/
inductive Request where
  | checkEmail (email : String)
  | peopleCreate (roleIds : List String) (orgId : Option String)
  | changePassword (userId : String) (newPassword : Val)
  | peopleUpdate (userId : String) (updates : UserUpdates)
  | peopleDelete (userId : String)
  | sessionsDestroy (sessionId : String)
  | avatarsDelete (_id : String)
  | orgsCreate (title : String)
  | orgsUpdate (orgId : String) (updates : OrgUpdates)
  | orgsDelete (orgId : String)
  | rolesCheckId (roleId : String)
  | rolesCreate (roleId : String)
  | rolesUpdate (roleId : String) (updates : RoleUpdates)
  | rolesSetAbility (roleId : String) (abilityLongId : String) (set : Bool)
  | rolesSetAbilityParam (roleId : String) (abilityLongId : String) (paramId : String) (value : Val)
  | rolesDelete (roleId : String)
  deriving DecidableEq, Repr

/-- External collaborators the handlers consult (regexps module, users
registries, abilities map) — black boxes outside the repository core. -/
structure HandlersEnv where
  emailOk : String → Bool
  emailExists : String → Bool
  roleIdOk : String → Bool
  roleExists : String → Bool
  bySessionId : String → Option String
  paramFits : String → String → Val → Bool

/-- The leading check shared by most handlers:
if (!user?.abilities.inSite?.users) throw new AbilityError(). -/
def guardAbility (user : Option Caller)
    (body : Caller → Option HErr × List Mutation) : Option HErr × List Mutation :=
  match user with
  | some u => if u.inSiteUsers then body u else (some (HErr.ability none), [])
  | none => (some (HErr.ability none), [])

/-- Shallow embedding of every wss.onRequest handler installed by
setupHandlers (src/handlers.ts), in source order of checks. The result is the
thrown error, if any, paired with the list of domain mutations the handler
initiated; in the source every mutation is the final statement, after all
throws. JS truthiness is kept: an empty string org id is falsy and skips the
subordination check, an array-valued field is truthy even when empty. -/
def handleRequest (env : HandlersEnv) (user : Option Caller) :
    Request → Option HErr × List Mutation
  | Request.checkEmail email =>
      guardAbility user fun _ =>
        if !env.emailOk email then (some (HErr.err ("email.not")), [])
        else if env.emailExists email then (some (HErr.err ("email.exists")), [])
        else (none, [])
  | Request.peopleCreate roleIds orgId =>
      guardAbility user fun u =>
        if roleIds.isEmpty || !roleIds.all (u.slaveRoleIds.contains ·) then
          (some HErr.roles, [])
        else if (match orgId with
                 | some o => o != "" && !u.slaveIds.contains o
                 | none => false : Bool) then
          (some (HErr.subordination ("slaveIds")), [])
        else (none, [Mutation.createUser])
  | Request.changePassword userId newPassword =>
      guardAbility user fun u =>
        if !u.permissiveIds.contains userId then
          (some (HErr.subordination ("permissiveIds")), [])
        else
          match newPassword with
          | Val.str s =>
              if s = "" then (some (HErr.err ("password.empty")), [])
              else (none, [Mutation.changePassword])
          | _ => (some (HErr.err ("password.wrong-type")), [])
  | Request.peopleUpdate userId updates =>
      guardAbility user fun u =>
        if !u.permissiveIds.contains userId then
          (some (HErr.subordination ("permissiveIds")), [])
        else if (match updates.roles with
                 | some rs => rs.isEmpty || !rs.all (u.slaveRoleIds.contains ·)
                 | none => false : Bool) then
          (some HErr.roles, [])
        else if (match updates.org with
                 | some o => o != "" && !u.slaveIds.contains o
                 | none => false : Bool) then
          (some (HErr.subordination ("slaveIds")), [])
        else if updates.isEmptyObj then (some (HErr.err ("updates.empty")), [])
        else (none, [Mutation.updateUser])
  | Request.peopleDelete userId =>
      guardAbility user fun u =>
        if !u.slaveIds.contains userId then
          (some (HErr.subordination ("slaveIds")), [])
        else (none, [Mutation.deleteUser])
  | Request.sessionsDestroy sessionId =>
      guardAbility user fun u =>
        if !(match env.bySessionId sessionId with
             | some uid => u.permissiveIds.contains uid
             | none => false : Bool) then
          (some (HErr.subordination ("permissiveIds")), [])
        else (none, [Mutation.destroySession])
  | Request.avatarsDelete i =>
      (match user with
       | none => (some (HErr.ability none), [])
       | some u =>
           if u._id != i && !u.inSiteUsers then (some (HErr.ability none), [])
           else if !u.permissiveIds.contains i then
             (some (HErr.subordination ("permissiveIds")), [])
           else (none, [Mutation.deleteAvatar]))
  | Request.orgsCreate title =>
      guardAbility user fun _ =>
        if title = "" then (some (HErr.err ("title.empty")), [])
        else (none, [Mutation.createOrg])
  | Request.orgsUpdate orgId updates =>
      guardAbility user fun u =>
        if !u.slaveIds.contains orgId then
          (some (HErr.subordination ("slaveIds")), [])
        else if updates.title = some ("") then (some (HErr.err ("title.empty")), [])
        else if (match updates.owners with
                 | some os => !os.all (u.slaveIds.contains ·)
                 | none => false : Bool) then
          (some (HErr.subordination ("slaveIds")), [])
        else if updates.isEmptyObj then (some (HErr.err ("updates.empty")), [])
        else (none, [Mutation.updateOrg])
  | Request.orgsDelete orgId =>
      guardAbility user fun u =>
        if !u.slaveIds.contains orgId then
          (some (HErr.subordination ("slaveIds")), [])
        else (none, [Mutation.deleteOrg])
  | Request.rolesCheckId roleId =>
      guardAbility user fun _ =>
        if !env.roleIdOk roleId then (some (HErr.err ("role.not-id")), [])
        else if env.roleExists roleId then (some (HErr.err ("role.exists")), [])
        else (none, [])
  | Request.rolesCreate _ =>
      guardAbility user fun _ => (none, [Mutation.createRole])
  | Request.rolesUpdate roleId updates =>
      guardAbility user fun u =>
        if !u.slaveRoleIds.contains roleId then (some HErr.roles, [])
        else if (match updates.involves with
                 | some l => !l.all (u.slaveRoleIds.contains ·)
                 | none => false : Bool) then
          (some HErr.roles, [])
        else (none, [Mutation.updateRole])
  | Request.rolesSetAbility roleId abilityLongId _ =>
      guardAbility user fun u =>
        if !u.slaveRoleIds.contains roleId then (some HErr.roles, [])
        else if !u.abilityIds.contains abilityLongId then
          (some (HErr.ability (some abilityLongId)), [])
        else (none, [Mutation.setAbility])
  | Request.rolesSetAbilityParam roleId abilityLongId paramId value =>
      guardAbility user fun u =>
        if !u.slaveRoleIds.contains roleId then (some HErr.roles, [])
        else if !u.abilityIds.contains abilityLongId then
          (some (HErr.ability (some abilityLongId)), [])
        else if !env.paramFits abilityLongId paramId value then
          (some (HErr.err ("ability.wrong-param")), [])
        else (none, [Mutation.setAbilityParam])
  | Request.rolesDelete roleId =>
      guardAbility user fun u =>
        if !u.slaveRoleIds.contains roleId then (some HErr.roles, [])
        else (none, [Mutation.deleteRole])

/-- A caller lacks the ability a request requires: for avatar deletion the
requirement is self-or-users-ability, for every other handler it is the
inSite users ability; an absent user always lacks it. -/
def lacksRequiredAbility (user : Option Caller) (req : Request) : Prop :=
  match user with
  | none => True
  | some u =>
      match req with
      | Request.avatarsDelete i => u._id ≠ i ∧ u.inSiteUsers = false
      | _ => u.inSiteUsers = false

/-- A caller holding the inSite users ability whose slaveRoleIds is empty. -/
def callerEmptySlaves : Caller :=
  { _id := "u1", inSiteUsers := true, permissiveIds := [], slaveIds := [],
    slaveRoleIds := [], abilityIds := [] }

/-- A caller holding the inSite users ability with one permissive id. -/
def callerS : Caller :=
  { _id := "a1", inSiteUsers := true, permissiveIds := ["t1"], slaveIds := [],
    slaveRoleIds := [], abilityIds := [] }

/-- Concrete session environment: every session belongs to user 7. -/
def envA : SessEnv := { sessionUser := fun _ => 7, sessionsById := fun _ => none }

/-- Concrete initial state: user 7 has an empty userWsMap entry (as created by
handleUserCreate) and no session bindings. -/
def stA : ServerState :=
  { userWs := fun u => if u = 7 then some [] else none, sessionsWs := fun _ => none }

/-- A fresh, not rejected connection. -/
def wA : Wssc :=
  { wid := 0, isRejected := false, session := none, user := none, lastUserId := none }

/-- A rejected connection. -/
def wR : Wssc :=
  { wid := 5, isRejected := true, session := none, user := none, lastUserId := none }

/-- State after binding connection 0 to session 3 (of user 7). -/
def afterBind : ServerState × Wssc := setSession envA stA wA (SessArg.sess 3)

/-- State after the logout-style setSession(wssc, null) that follows the bind. -/
def afterClear : ServerState × Wssc := setSession envA afterBind.1 afterBind.2 SessArg.null

/-- A concrete lifecycle state with one unrelated listener registered. -/
def pubStA : UserPubState := { listeners := [9], subMap := fun _ => none }

/-- A concrete raw user document with _id, email and org fields. -/
def docA : Doc := fun k =>
  if k = "_id" then some (Val.str ("u1"))
  else if k = "email" then some (Val.str ("e"))
  else if k = "org" then some (Val.str ("o1"))
  else none

/-- A concrete live user entity. -/
def entityA : UserEntity :=
  { initials := Val.str ("AB"), displayLabel := Val.str ("A B"),
    avatarUrl := Val.str ("a"), isOnline := true }

/-- A concrete live users registry holding only entityA under id u1. -/
def usersA : String → Option UserEntity := fun i => if i = "u1" then some entityA else none

/-- A concrete handlers environment where every external test fails. -/
def envH : HandlersEnv :=
  { emailOk := fun _ => false, emailExists := fun _ => false,
    roleIdOk := fun _ => false, roleExists := fun _ => false,
    bySessionId := fun _ => none, paramFits := fun _ _ _ => false }

/-- Error-implies-no-mutation for one handler result. -/
def failClosed (r : Option HErr × List Mutation) : Prop :=
  r.1.isSome → r.2 = []

theorem setAdd_self_mem (l : List Nat) (x : Nat) : x ∈ setAdd l x := by
  unfold setAdd
  by_cases h : x ∈ l <;> simp [h]

theorem failClosed_guard (user : Option Caller)
    (body : Caller → Option HErr × List Mutation)
    (h : ∀ u, failClosed (body u)) : failClosed (guardAbility user body) := by
  cases user with
  | none => intro _; rfl
  | some u =>
      unfold guardAbility
      by_cases hu : u.inSiteUsers
      · simpa [hu] using h u
      · intro _; simp [hu]

/-- Claim C1, counterexample: a caller holding the inSite users ability whose
slaveRoleIds list is empty is NOT denied by the roles publication resolver —
the resolver returns a resolved query whose membership set is empty, so the
subscribe does not yield Denied. -/
theorem rolesResolve_emptySlaves_not_denied :
    callerEmptySlaves.inSiteUsers = true ∧ callerEmptySlaves.slaveRoleIds = [] ∧
    rolesResolve (some callerEmptySlaves) =
      some { queryIdIn := [],
             projection := ["title", "description", "involves", "abilities"],
             sortField := "_o", sortAsc := true } :=
  ⟨rfl, rfl, rfl⟩

/-- Claim C1, amended: the roles resolver gates on the inSite users ability
only; with the ability it returns the query over slaveRoleIds even when that
list is empty (the subscription is accepted with an empty view), and it
denies exactly when the user is missing or lacks the ability. -/
theorem rolesResolve_ability_gate (u : Caller) :
    (u.inSiteUsers = true →
      rolesResolve (some u) =
        some { queryIdIn := u.slaveRoleIds,
               projection := ["title", "description", "involves", "abilities"],
               sortField := "_o", sortAsc := true }) ∧
    (u.inSiteUsers = false → rolesResolve (some u) = none) ∧
    rolesResolve none = none :=
  ⟨fun h => by simp [rolesResolve, h], fun h => by simp [rolesResolve, h], rfl⟩

/-- Witness for the amended C1 theorem at the concrete empty-slaves caller. -/
theorem rolesResolve_ability_gate_witness :
    rolesResolve (some callerEmptySlaves) =
      some { queryIdIn := callerEmptySlaves.slaveRoleIds,
             projection := ["title", "description", "involves", "abilities"],
             sortField := "_o", sortAsc := true } :=
  (rolesResolve_ability_gate callerEmptySlaves).1 rfl

/-- Claim C2: the online-status broadcast delivers exactly one implicit update
patch entry — op u, fields the _id and isOnline of the changed user, implicit
flag true, handed to the handle as-is without the transform hook — to exactly
those users-publication subscriptions whose connection has a logged-in user
different from the changed user; a subscription of the changed user, or one
without a user, receives nothing. -/
theorem usersOnlineBroadcast_spec (subs : List UsersSub) (i : String) (onl : Bool)
    (s : UsersSub) (p : PatchEntry) :
    (s, p) ∈ handleUserIsOnline subs i onl ↔
      s ∈ subs ∧ (∃ u, s.userId = some u ∧ u ≠ i) ∧
        p = { op := "u", fieldId := i, fieldIsOnline := onl, implicit := true } := by
  unfold handleUserIsOnline
  rw [List.mem_filterMap]
  constructor
  · rintro ⟨a, ha, hf⟩
    rcases hu : a.userId with _ | u <;> rw [hu] at hf
    · exact absurd hf (by simp)
    · dsimp only at hf
      by_cases hui : u = i
      · simp [hui] at hf
      · rw [if_pos hui] at hf
        simp only [Option.some.injEq, Prod.mk.injEq] at hf
        obtain ⟨rfl, hp⟩ := hf
        exact ⟨ha, ⟨u, hu, hui⟩, hp.symm⟩
  · rintro ⟨hs, ⟨u, hu, hne⟩, rfl⟩
    refine ⟨s, hs, ?_⟩
    rw [hu]
    dsimp only
    rw [if_pos hne]

/-- Claim C3, counterexample: after connection 0 binds to a session of user 7
and then logs out via setSession null, the permissions-change renewal event
for user 7 still carries connection 0, whose bound user has been cleared —
the emitted set is not the set of connections whose bound session belongs to
user 7 (that set is empty). -/
theorem permissionsChange_carries_stale_connection :
    afterClear.2.user = none ∧ afterClear.2.session = none ∧
    handleUserPermissionsChange afterClear.1 7 = some [0] :=
  ⟨rfl, rfl, rfl⟩

/-- Claim C3, amended: for a user with a userWsMap entry, the
should-renew-subscriptions event carries exactly that entry, and binding a
connection to a session of that user puts the connection into the emitted
set; the entry may however also retain connections that have since been
unbound, because the clearing branch of setSession never removes them. -/
theorem permissionsChange_emits_userWs_entry (env : SessEnv) (st : ServerState)
    (w : Wssc) (s : Nat) (l : List Nat)
    (hr : w.isRejected = false) (hs : w.session = none)
    (hmap : st.userWs (env.sessionUser s) = some l) :
    handleUserPermissionsChange (setSession env st w (SessArg.sess s)).1
      (env.sessionUser s) = some (setAdd l w.wid) ∧
    w.wid ∈ setAdd l w.wid := by
  constructor
  · simp [setSession, handleUserPermissionsChange, hr, hs, hmap]
  · exact setAdd_self_mem l w.wid

/-- Witness for the amended C3 theorem at the concrete bind of connection 0 to
session 3 of user 7. -/
theorem permissionsChange_emits_userWs_entry_witness :
    handleUserPermissionsChange (setSession envA stA wA (SessArg.sess 3)).1 7 =
      some (setAdd [] 0) ∧ (0 : Nat) ∈ setAdd [] 0 :=
  permissionsChange_emits_userWs_entry envA stA wA 3 [] rfl rfl rfl

/-- Claim C9, bug evaluation: setSession(wssc, null) on a bound connection
clears wssc.session and wssc.user but leaves the connection inside the
per-user connection set (the removal statement runs after wssc.user is
deleted, so its WeakMap lookup can never hit), and a later
permissions-change renewal event for that user is still addressed to the
connection. -/
theorem setSession_null_leaves_connection_registered :
    afterBind.1.userWs 7 = some [0] ∧
    afterClear.2.session = none ∧ afterClear.2.user = none ∧
    afterClear.1.userWs 7 = some [0] ∧
    handleUserPermissionsChange afterClear.1 7 = some [0] :=
  ⟨rfl, rfl, rfl, rfl, rfl⟩

/-- Claim C10: a rejected connection is never bound: setSession with a valid
session takes the clearing branch (session and user stay unset, the state is
untouched), and the login request handler returns without attempting
authentication. -/
theorem rejected_never_bound (env : SessEnv) (st : ServerState) (w : Wssc)
    (s : Nat) (lr : Option Nat) (hr : w.isRejected = true) (hs : w.session = none) :
    (setSession env st w (SessArg.sess s)).2.session = none ∧
    (setSession env st w (SessArg.sess s)).2.user = none ∧
    (setSession env st w (SessArg.sess s)).1 = st ∧
    handleClientRequestLogin env st w lr = ((st, w), false) := by
  refine ⟨?_, ?_, ?_, ?_⟩ <;>
    simp [setSession, clearingBranch, handleClientRequestLogin, hr, hs]

/-- Witness for C10 at a concrete rejected connection. -/
theorem rejected_never_bound_witness :
    (setSession envA stA wR (SessArg.sess 3)).2.session = none ∧
    (setSession envA stA wR (SessArg.sess 3)).2.user = none ∧
    (setSession envA stA wR (SessArg.sess 3)).1 = stA ∧
    handleClientRequestLogin envA stA wR (some 3) = ((stA, wR), false) :=
  rejected_never_bound envA stA wR 3 (some 3) rfl rfl

/-- Claim C4: for a subscription whose connection has a user, onSubscribe
registers exactly one fresh change listener on the users collection and
records it for the subscription; the following onUnsubscribe removes that
same listener, restoring the listener set to its value before subscribe.
Without a user, onSubscribe registers nothing and onUnsubscribe removes
nothing. -/
theorem userPub_lifecycle_roundtrip (st : UserPubState) (subId f : Nat)
    (hf : f ∉ st.listeners) (hsub : st.subMap subId = none) :
    (onSubscribe st subId true f).listeners = st.listeners ++ [f] ∧
    (onSubscribe st subId true f).subMap subId = some f ∧
    (onUnsubscribe (onSubscribe st subId true f) subId).listeners = st.listeners ∧
    onSubscribe st subId false f = st ∧
    onUnsubscribe st subId = st := by
  have hadd : setAdd st.listeners f = st.listeners ++ [f] := by
    simp [setAdd, hf]
  refine ⟨?_, ?_, ?_, rfl, ?_⟩
  · simp [onSubscribe, hadd]
  · simp [onSubscribe]
  · have h2 : (onSubscribe st subId true f).subMap subId = some f := by
      simp [onSubscribe]
    unfold onUnsubscribe
    rw [h2]
    simp only [onSubscribe, if_pos, hadd]
    rw [List.erase_append_right _ hf]
    simp
  · unfold onUnsubscribe
    rw [hsub]

/-- Witness for C4 at a concrete state with one unrelated listener. -/
theorem userPub_lifecycle_roundtrip_witness :
    (onSubscribe pubStA 0 true 3).listeners = pubStA.listeners ++ [3] ∧
    (onSubscribe pubStA 0 true 3).subMap 0 = some 3 ∧
    (onUnsubscribe (onSubscribe pubStA 0 true 3) 0).listeners = pubStA.listeners ∧
    onSubscribe pubStA 0 false 3 = pubStA ∧
    onUnsubscribe pubStA 0 = pubStA :=
  userPub_lifecycle_roundtrip pubStA 0 3 (by decide) rfl

/-- Claim C5: the sessions publication resolver returns some resolved query
iff the caller exists, holds the inSite users ability and the requested
userId is among its permissiveIds; any returned query is exactly the literal
query on user = userId with the remoteAddress, isOnline, prolongedAt
projection sorted by prolongedAt descending; in every other case it denies. -/
theorem sessionsResolve_spec (user : Option Caller) (userId : String) :
    (∀ q, sessionsResolve user userId = some q →
      q = { queryUser := userId,
            projection := ["remoteAddress", "isOnline", "prolongedAt"],
            sortField := "prolongedAt", sortAsc := false }) ∧
    (sessionsResolve user userId ≠ none ↔
      ∃ u, user = some u ∧ u.inSiteUsers = true ∧ userId ∈ u.permissiveIds) := by
  constructor
  · intro q h
    cases user with
    | none => simp [sessionsResolve] at h
    | some u =>
        dsimp only [sessionsResolve] at h
        split_ifs at h
        exact (Option.some.inj h).symm
  · cases user with
    | none => simp [sessionsResolve]
    | some u =>
        dsimp only [sessionsResolve]
        by_cases h1 : u.inSiteUsers
        · by_cases h2 : userId ∈ u.permissiveIds
          · have hc : (u.inSiteUsers && u.permissiveIds.contains userId) = true := by
              simp [h1, h2]
            rw [if_pos hc]
            simp [h1, h2]
          · have hc : ¬(u.inSiteUsers && u.permissiveIds.contains userId) = true := by
              simp [h1, h2]
            rw [if_neg hc]
            simp [h2]
        · have hc : ¬(u.inSiteUsers && u.permissiveIds.contains userId) = true := by
            simp [h1]
          rw [if_neg hc]
          simp [h1]

/-- Witness for C5 at a concrete caller with permissive id t1. -/
theorem sessionsResolve_spec_witness :
    sessionsResolve (some callerS) "t1" ≠ none ∧
    ({ queryUser := "t1", projection := ["remoteAddress", "isOnline", "prolongedAt"],
       sortField := "prolongedAt", sortAsc := false } : SessionsResolved) =
      { queryUser := "t1", projection := ["remoteAddress", "isOnline", "prolongedAt"],
        sortField := "prolongedAt", sortAsc := false } :=
  ⟨(sessionsResolve_spec (some callerS) "t1").2.mpr ⟨callerS, rfl, rfl, by decide⟩,
   (sessionsResolve_spec (some callerS) "t1").1 _ rfl⟩

/-- Claim C6: a roles-update event invokes flushInitial on the roles
publication; a roles-role-update event carrying a change-stream document
invokes skip with exactly that document; one without a document invokes
nothing. -/
theorem rolesEvents_dispatch :
    dispatchRolesEvent UsersRolesEvent.rolesUpdate = [RolesPubAction.flushInitial] ∧
    (∀ d, dispatchRolesEvent (UsersRolesEvent.rolesRoleUpdate (some d)) =
      [RolesPubAction.skip d]) ∧
    dispatchRolesEvent (UsersRolesEvent.rolesRoleUpdate none) = [] :=
  ⟨rfl, fun _ => rfl, rfl⟩

/-- Claim C7: the users publication transform leaves the document enriched
with initials, displayLabel, avatarUrl and isOnline copied from the live user
entity and orgId equal to the raw org field, deletes org and avatar, and
changes no other field. -/
theorem usersTransform_spec (users : String → Option UserEntity) (d : Doc)
    (i : String) (u : UserEntity)
    (hid : d ("_id") = some (Val.str i)) (hu : users i = some u) :
    ∃ d1, usersTransform users d = some d1 ∧
      d1 ("initials") = some u.initials ∧
      d1 ("displayLabel") = some u.displayLabel ∧
      d1 ("avatarUrl") = some u.avatarUrl ∧
      d1 ("isOnline") = some (Val.bool u.isOnline) ∧
      d1 ("orgId") = d ("org") ∧
      d1 ("org") = none ∧
      d1 ("avatar") = none ∧
      ∀ k, k ∉ (["initials", "displayLabel", "avatarUrl", "isOnline",
                 "orgId", "org", "avatar"] : List String) →
        d1 k = d k := by
  refine ⟨(((((((d.set ("initials") (some u.initials)).set
      ("displayLabel") (some u.displayLabel)).set
      ("avatarUrl") (some u.avatarUrl)).set
      ("isOnline") (some (Val.bool u.isOnline))).set
      ("orgId") (d ("org"))).set
      ("org") none).set
      ("avatar") none), ?_, rfl, rfl, rfl, rfl, rfl, rfl, rfl, ?_⟩
  · unfold usersTransform
    rw [hid]
    dsimp only
    rw [hu]
  · intro k hk
    simp only [List.mem_cons, List.not_mem_nil, or_false, not_or] at hk
    obtain ⟨h1, h2, h3, h4, h5, h6, h7⟩ := hk
    simp only [Doc.set]
    rw [if_neg h7, if_neg h6, if_neg h5, if_neg h4, if_neg h3, if_neg h2, if_neg h1]

/-- Witness for C7 at a concrete document and live user entity. -/
theorem usersTransform_spec_witness :
    ∃ d1, usersTransform usersA docA = some d1 ∧
      d1 ("initials") = some entityA.initials ∧
      d1 ("displayLabel") = some entityA.displayLabel ∧
      d1 ("avatarUrl") = some entityA.avatarUrl ∧
      d1 ("isOnline") = some (Val.bool entityA.isOnline) ∧
      d1 ("orgId") = docA ("org") ∧
      d1 ("org") = none ∧
      d1 ("avatar") = none ∧
      ∀ k, k ∉ (["initials", "displayLabel", "avatarUrl", "isOnline",
                 "orgId", "org", "avatar"] : List String) →
        d1 k = docA k :=
  usersTransform_spec usersA docA ("u1") entityA rfl rfl

/-- Claim C8: every request handler installed by setupHandlers performs all
precondition checks before initiating any domain mutation — if it throws, the
mutation list is empty, so the domain state is unchanged on error — and a
caller lacking the ability the request requires always gets an AbilityError. -/
theorem handlers_fail_closed (env : HandlersEnv) (user : Option Caller)
    (req : Request) :
    ((handleRequest env user req).1.isSome → (handleRequest env user req).2 = []) ∧
    (lacksRequiredAbility user req → (handleRequest env user req).1 = some (HErr.ability none)) := by
  constructor
  · have : failClosed (handleRequest env user req) := by
      cases req with
      | checkEmail e =>
          refine failClosed_guard _ _ (fun u => ?_)
          intro h
          split_ifs at h ⊢ <;> rfl
      | peopleCreate roleIds orgId =>
          refine failClosed_guard _ _ (fun u => ?_)
          intro h
          split_ifs at h ⊢ <;> simp_all
      | changePassword uid pw =>
          refine failClosed_guard _ _ (fun u => ?_)
          intro h
          cases pw <;> dsimp only at h ⊢ <;> split_ifs at h ⊢ <;> simp_all
      | peopleUpdate uid updates =>
          refine failClosed_guard _ _ (fun u => ?_)
          intro h
          split_ifs at h ⊢ <;> simp_all
      | peopleDelete uid =>
          refine failClosed_guard _ _ (fun u => ?_)
          intro h
          split_ifs at h ⊢ <;> simp_all
      | sessionsDestroy sid =>
          refine failClosed_guard _ _ (fun u => ?_)
          intro h
          split_ifs at h ⊢ <;> simp_all
      | avatarsDelete i =>
          cases user with
          | none => intro _; rfl
          | some u =>
              intro h
              dsimp only [handleRequest] at h ⊢
              split_ifs at h ⊢ <;> simp_all
      | orgsCreate t =>
          refine failClosed_guard _ _ (fun u => ?_)
          intro h
          split_ifs at h ⊢ <;> simp_all
      | orgsUpdate oid updates =>
          refine failClosed_guard _ _ (fun u => ?_)
          intro h
          split_ifs at h ⊢ <;> simp_all
      | orgsDelete oid =>
          refine failClosed_guard _ _ (fun u => ?_)
          intro h
          split_ifs at h ⊢ <;> simp_all
      | rolesCheckId rid =>
          refine failClosed_guard _ _ (fun u => ?_)
          intro h
          split_ifs at h ⊢ <;> rfl
      | rolesCreate rid =>
          refine failClosed_guard _ _ (fun u => ?_)
          intro h
          simp_all
      | rolesUpdate rid updates =>
          refine failClosed_guard _ _ (fun u => ?_)
          intro h
          split_ifs at h ⊢ <;> simp_all
      | rolesSetAbility rid aid b =>
          refine failClosed_guard _ _ (fun u => ?_)
          intro h
          split_ifs at h ⊢ <;> simp_all
      | rolesSetAbilityParam rid aid pid v =>
          refine failClosed_guard _ _ (fun u => ?_)
          intro h
          split_ifs at h ⊢ <;> simp_all
      | rolesDelete rid =>
          refine failClosed_guard _ _ (fun u => ?_)
          intro h
          split_ifs at h ⊢ <;> simp_all
    exact this
  · cases user with
    | none => intro _; cases req <;> rfl
    | some u =>
        intro hl
        cases req <;> simp_all [lacksRequiredAbility, handleRequest, guardAbility]

/-- Witness for C8: an absent caller on the people-delete request gets an
AbilityError and no mutation. -/
theorem handlers_fail_closed_witness :
    (handleRequest envH none (Request.peopleDelete ("x"))).2 = [] ∧
    (handleRequest envH none (Request.peopleDelete ("x"))).1 = some (HErr.ability none) :=
  ⟨(handlers_fail_closed envH none (Request.peopleDelete ("x"))).1 rfl,
   (handlers_fail_closed envH none (Request.peopleDelete ("x"))).2 True.intro⟩

end InsiteUsersWs
